import Mathlib

/-!
Verification development for `backend/scraper/data_updater.py` of the
RT-traffic-visualisation repository.

The Python program is shallowly embedded as follows.

* An XML element (as produced by `lxml.etree`) is an `Xml` tree carrying a
  tag, an attribute dictionary, a text node (`elt.text`, which is `None` or a
  string) and a list of child elements.
* A Python dictionary is an association list with distinct keys, in insertion
  order; assignment (`d[k] = v`) keeps the position of an existing key, and
  `d[k]` lookup returns the entry for `k` when present.
* Exceptions are made explicit with `Except PyError`: `KeyError` from a
  failed subscript, `ValueError` from `int()` / `float()` on a malformed
  string, `TypeError` from comparing `str`/`None` with `int` via `<=` and
  from `int(None)`, and `AttributeError` from calling `.replace` on `None`.
  `sys.exit(1)` and an uncaught exception are the two abnormal outcomes of
  `main` (CPython exits with status 1 in both cases).
* `int(s)` and `float(s)` on strings are modelled by `pyInt?` and `pyFloat?`
  over the decimal fragment Python accepts (optional surrounding whitespace,
  optional sign, digits, and for floats an optional fractional part and
  decimal exponent); the special values `inf`/`nan` and underscore digit
  separators are outside the model, as the feeds never produce them.
  Python floats are represented by exact rationals: every string the
  program parses denotes a decimal rational, and the identical literal
  appears on both sides of every claim, so value equality transfers.
* Network fetches are oracles: `runMain` receives each feed's outcome
  (`Except` of a transport error or a parsed list of `meetpunt` elements)
  and the two results of the two `get_time_json()` calls as parameters.
-/

set_option autoImplicit false

namespace DataUpdater

/-- Python errors that the embedded code can raise. -/
inductive PyError where
  | keyError
  | valueError
  | typeError
  | attributeError
  deriving DecidableEq, Repr

/-- Association-list lookup, modelling Python `d[k]` (first entry wins;
dictionaries never hold duplicate keys). -/
def aget? {κ α : Type} [DecidableEq κ] : List (κ × α) → κ → Option α
  | [], _ => none
  | (k, v) :: rest, q => if k = q then some v else aget? rest q

/-- Association-list assignment, modelling Python `d[k] = v`: an existing key
keeps its position, a new key is appended. -/
def aset {κ α : Type} [DecidableEq κ] : List (κ × α) → κ → α → List (κ × α)
  | [], q, v => [(q, v)]
  | (k, w) :: rest, q, v =>
    if k = q then (q, v) :: rest else (k, w) :: aset rest q v

/-- A raw record decoded from XML: field name to text node (`elt.text` is
`None` or a string). -/
def Rec : Type := List (String × Option String)

/-- ASCII whitespace stripped by Python `int()` / `float()` conversions. -/
def isPySpace (c : Char) : Bool :=
  c = ' ' ∨ c = '\t' ∨ c = '\n' ∨ c = '\r' ∨ c = '\x0b' ∨ c = '\x0c'

/-- Strip leading and trailing whitespace from a character list. -/
def trimChars (cs : List Char) : List Char :=
  ((cs.dropWhile isPySpace).reverse.dropWhile isPySpace).reverse

/-- Numeric value of a digit string (caller guarantees all digits). -/
def digitsToNat (cs : List Char) : Nat :=
  cs.foldl (fun a c => a * 10 + (c.toNat - 48)) 0

/-- All characters are ASCII digits. -/
def allDigits (cs : List Char) : Bool :=
  cs.all (fun c => c.isDigit)

/-- Python `int(s)` on a string: optional whitespace, optional sign, at least
one digit; `none` models the `ValueError` raised otherwise. -/
def pyInt? (s : String) : Option Int :=
  match trimChars s.toList with
  | '-' :: cs =>
    if cs ≠ [] ∧ allDigits cs then some (-(digitsToNat cs : Int)) else none
  | '+' :: cs =>
    if cs ≠ [] ∧ allDigits cs then some (digitsToNat cs : Int) else none
  | cs =>
    if cs ≠ [] ∧ allDigits cs then some (digitsToNat cs : Int) else none

/-- The rational `sgn * m * 10 ^ (e - scale)`: value of a decimal literal
with digit value `m`, `scale` digits after the point and exponent `e`. -/
def decValue (sgn : Int) (m : Nat) (scale : Nat) (e : Int) : Rat :=
  if 0 ≤ e - (scale : Int) then
    mkRat (sgn * (m : Int) * 10 ^ (e - (scale : Int)).toNat) 1
  else
    mkRat (sgn * (m : Int)) (10 ^ ((scale : Int) - e).toNat)

/-- Optional exponent suffix of a Python float literal: empty, or `e`/`E`
followed by an optionally signed digit string. -/
def parseExpPart : List Char → Option Int
  | [] => some 0
  | c :: rest =>
    if c = 'e' ∨ c = 'E' then
      match rest with
      | '-' :: ds =>
        if ds ≠ [] ∧ allDigits ds then some (-(digitsToNat ds : Int)) else none
      | '+' :: ds =>
        if ds ≠ [] ∧ allDigits ds then some (digitsToNat ds : Int) else none
      | ds =>
        if ds ≠ [] ∧ allDigits ds then some (digitsToNat ds : Int) else none
    else none

/-- Unsigned part of a Python float literal: digits with an optional
fractional part (at least one digit overall) and an optional exponent.
Returns the digit value of the mantissa, the number of digits after the
point, and the exponent. -/
def pyFloatParts (cs : List Char) : Option (Nat × Nat × Int) :=
  let ip := cs.takeWhile (fun c => c.isDigit)
  let rest1 := cs.dropWhile (fun c => c.isDigit)
  match rest1 with
  | '.' :: rest2 =>
    let fp := rest2.takeWhile (fun c => c.isDigit)
    let rest3 := rest2.dropWhile (fun c => c.isDigit)
    if ip = [] ∧ fp = [] then none
    else
      match parseExpPart rest3 with
      | none => none
      | some e => some (digitsToNat (ip ++ fp), fp.length, e)
  | _ =>
    if ip = [] then none
    else
      match parseExpPart rest1 with
      | none => none
      | some e => some (digitsToNat ip, 0, e)

/-- Python `float(s)` on a string (decimal fragment): optional whitespace,
optional sign, then a decimal literal; `none` models the `ValueError`. -/
def pyFloat? (s : String) : Option Rat :=
  match trimChars s.toList with
  | '-' :: cs => (pyFloatParts cs).map (fun p => decValue (-1) p.1 p.2.1 p.2.2)
  | '+' :: cs => (pyFloatParts cs).map (fun p => decValue 1 p.1 p.2.1 p.2.2)
  | cs => (pyFloatParts cs).map (fun p => decValue 1 p.1 p.2.1 p.2.2)

/-- Python `s.replace(',', '.')` for a single-character pattern: replace every
comma by a dot. -/
def replaceCommaDot (s : String) : String :=
  String.mk (s.toList.map (fun c => if c = ',' then '.' else c))

/-- Python truthiness of an XML text node: `None` and the empty string are
falsy, every other string is truthy. -/
def truthy : Option String → Bool
  | none => false
  | some s => s ≠ ""

/-- An XML element as seen through `lxml.etree`: tag, attribute dictionary,
text node (`None` or a string) and list of child elements. -/
inductive Xml where
  | mk (tag : String) (attrib : List (String × String))
       (text : Option String) (children : List Xml)

/-- Tag of an element. -/
def Xml.tag : Xml → String
  | .mk t _ _ _ => t

/-- Attribute dictionary of an element. -/
def Xml.attrib : Xml → List (String × String)
  | .mk _ a _ _ => a

/-- Text node of an element (`elt.text`). -/
def Xml.text : Xml → Option String
  | .mk _ _ t _ => t

/-- Child elements of an element. -/
def Xml.children : Xml → List Xml
  | .mk _ _ _ c => c

/-- One iteration of the inner loop of `get_data` (lines 40-45): a child that
is not a `meetdata` element contributes its text under its tag; a `meetdata`
element must carry a `klasse_id` attribute (`KeyError` otherwise), and only
the group whose `klasse_id` equals `"2"` has its children flattened into the
record. -/
def addChild (d : Rec) (elt : Xml) : Except PyError Rec :=
  if elt.tag ≠ "meetdata" then .ok (aset d elt.tag elt.text)
  else
    match aget? elt.attrib "klasse_id" with
    | none => .error .keyError
    | some c =>
      if c = "2" then
        .ok (elt.children.foldl (fun d2 md => aset d2 md.tag md.text) d)
      else .ok d

/-- The inner loop of `get_data` over the children of one `meetpunt`
element, from accumulator `d`. -/
def buildRec (d : Rec) : List Xml → Except PyError Rec
  | [] => .ok d
  | e :: es =>
    match addChild d e with
    | .ok d2 => buildRec d2 es
    | .error err => .error err

/-- Per-sensor body of `get_data` (lines 37-46): parse the `unieke_id`
attribute as an integer (`KeyError` when absent, `ValueError` when not
numeric), then collect the record from the children. -/
def parseMeetpunt (mp : Xml) : Except PyError (Int × Rec) :=
  match aget? mp.attrib "unieke_id" with
  | none => .error .keyError
  | some s =>
    match pyInt? s with
    | none => .error .valueError
    | some uid =>
      match buildRec [] mp.children with
      | .error e => .error e
      | .ok r => .ok (uid, r)

/-- The loop of `get_data` over all `meetpunt` elements, building the
measurement dictionary in document order. -/
def getDataAux (acc : List (Int × Rec)) : List Xml → Except PyError (List (Int × Rec))
  | [] => .ok acc
  | mp :: rest =>
    match parseMeetpunt mp with
    | .error e => .error e
    | .ok (uid, r) => getDataAux (aset acc uid r) rest

/-- Parsing stage of `get_data`: from the list of `meetpunt` elements of the
measurement feed to the raw-measurement dictionary. -/
def getData (mps : List Xml) : Except PyError (List (Int × Rec)) :=
  getDataAux [] mps

/-- Per-sensor body of `get_measure_points_data` (lines 67-72): parse
`unieke_id`, then collect every child's text under its tag (no filtering). -/
def parseConfigMeetpunt (mp : Xml) : Except PyError (Int × Rec) :=
  match aget? mp.attrib "unieke_id" with
  | none => .error .keyError
  | some s =>
    match pyInt? s with
    | none => .error .valueError
    | some uid =>
      .ok (uid, mp.children.foldl (fun d c => aset d c.tag c.text) [])

/-- The loop of `get_measure_points_data` over all `meetpunt` elements. -/
def getMeasurePointsAux (acc : List (Int × Rec)) :
    List Xml → Except PyError (List (Int × Rec))
  | [] => .ok acc
  | mp :: rest =>
    match parseConfigMeetpunt mp with
    | .error e => .error e
    | .ok (uid, r) => getMeasurePointsAux (aset acc uid r) rest

/-- Parsing stage of `get_measure_points_data`: from the list of `meetpunt`
elements of the configuration feed to the metadata dictionary. -/
def getMeasurePointsData (mps : List Xml) : Except PyError (List (Int × Rec)) :=
  getMeasurePointsAux [] mps

/-- A cleaned record as produced by `clean_data`: integer speed and boolean
working status. -/
structure CRec where
  speed : Int
  working : Bool
  deriving DecidableEq, Repr

/-- Per-entry body of `clean_data` (lines 86-95), in evaluation order.
`working` first: subscript `key_data['defect']` (`KeyError` when absent);
when `defect` is truthy the `and` short-circuits and `working` stays `False`;
when `defect` is falsy, Python evaluates `key_data['beschikbaar'] <= 1` —
a `KeyError` when the field is absent, and otherwise a `TypeError`, because
the field's value is a string or `None` (XML text) and Python 3 refuses
`str <= int` and `NoneType <= int`. Only then `speed`:
`int(key_data['voertuigsnelheid_rekenkundig'])` — `KeyError` when absent,
`TypeError` on `int(None)`, `ValueError` on a non-numeric string. -/
def cleanRecord (kd : Rec) : Except PyError CRec :=
  match aget? kd "defect" with
  | none => .error .keyError
  | some defect =>
    if truthy defect then
      match aget? kd "voertuigsnelheid_rekenkundig" with
      | none => .error .keyError
      | some none => .error .typeError
      | some (some s) =>
        match pyInt? s with
        | none => .error .valueError
        | some n => .ok { speed := n, working := false }
    else
      match aget? kd "beschikbaar" with
      | none => .error .keyError
      | some _ => .error .typeError

/-- `clean_data` (lines 77-97): clean every entry in dictionary order; the
first exception aborts the whole call. -/
def cleanData : List (Int × Rec) → Except PyError (List (Int × CRec))
  | [] => .ok []
  | (k, kd) :: rest =>
    match cleanRecord kd with
    | .error e => .error e
    | .ok c =>
      match cleanData rest with
      | .error e => .error e
      | .ok tail => .ok ((k, c) :: tail)

/-- A joined record as produced by `combine_data_measure_point`: the cleaned
fields extended with coordinates, location name and lane. `location` and
`lane` keep the `Option` of the XML text node (the metadata value is stored
as is, and may be `None`). -/
structure JRec where
  speed : Int
  working : Bool
  longitude : Rat
  latitude : Rat
  location : Option String
  lane : Option String
  deriving DecidableEq, Repr

/-- Per-entry body of `combine_data_measure_point` (lines 109-115), in
evaluation order. Each of the four lines subscripts
`measure_point_data[key]` and then a field; a `KeyError` from either
subscript is caught and marks the key for deletion (`ok none`). On the
coordinate lines, `.replace(',', '.')` on a `None` text raises an uncaught
`AttributeError`, and `float()` on a non-parsing string raises an uncaught
`ValueError`. -/
def combineEntry (mpd : List (Int × Rec)) (k : Int) (c : CRec) :
    Except PyError (Option JRec) :=
  match aget? mpd k with
  | none => .ok none
  | some md =>
    match aget? md "lengtegraad_EPSG_4326" with
    | none => .ok none
    | some none => .error .attributeError
    | some (some s1) =>
      match pyFloat? (replaceCommaDot s1) with
      | none => .error .valueError
      | some lng =>
        match aget? md "breedtegraad_EPSG_4326" with
        | none => .ok none
        | some none => .error .attributeError
        | some (some s2) =>
          match pyFloat? (replaceCommaDot s2) with
          | none => .error .valueError
          | some lat =>
            match aget? md "volledige_naam" with
            | none => .ok none
            | some loc =>
              match aget? md "Rijstrook" with
              | none => .ok none
              | some lane =>
                .ok (some { speed := c.speed, working := c.working,
                            longitude := lng, latitude := lat,
                            location := loc, lane := lane })

/-- `combine_data_measure_point` (lines 100-118): process entries in
dictionary order; keys marked for deletion are removed afterwards, so the
result keeps the surviving entries in their original order, and the first
uncaught exception aborts the whole call. -/
def combineData : List (Int × CRec) → List (Int × Rec) →
    Except PyError (List (Int × JRec))
  | [], _ => .ok []
  | (k, c) :: rest, mpd =>
    match combineEntry mpd k c with
    | .error e => .error e
    | .ok r =>
      match combineData rest mpd with
      | .error e => .error e
      | .ok tail =>
        match r with
        | some j => .ok ((k, j) :: tail)
        | none => .ok tail

/-- The snapshot object built by `process_data` (lines 127-130). -/
structure Snapshot where
  time : String
  measure_points : List (Int × JRec)
  deriving DecidableEq, Repr

/-- The two file writes performed by `process_data`. -/
structure WriteResult where
  latest : String × Snapshot
  archive : String × Snapshot
  deriving DecidableEq, Repr

/-- `process_data` (lines 121-141). The function calls `get_time_json()`
twice: `t1` is the value of the call on line 128 (stored in the snapshot's
`time` field) and `t2` the value of the call on line 140 (used to name the
archive file). Both writes dump the same `final_data` object. -/
def processData (t1 t2 : String) (data : List (Int × JRec)) : WriteResult :=
  let finalData : Snapshot := { time := t1, measure_points := data }
  { latest := ("most_recent_data.json", finalData),
    archive := ("old_data/" ++ t2 ++ ".json", finalData) }

/-- How a run of `main` terminates: normal completion (exit status 0),
`sys.exit(1)` after a printed fetch-failure reason, or an uncaught Python
exception (CPython prints the traceback and exits with status 1). -/
inductive Outcome where
  | success
  | sysExit (code : Nat)
  | uncaught (e : PyError)
  deriving DecidableEq, Repr

/-- Process exit status of an outcome. -/
def exitCode : Outcome → Nat
  | .success => 0
  | .sysExit n => n
  | .uncaught _ => 1

/-- `main` (lines 144-150). `fetchA` and `fetchB` are the outcomes of the
two `urllib.request.urlopen` calls (lines 30 and 58): an error models a
caught `URLError`, on which the fetcher prints a reason and calls
`sys.exit(1)`; an ok value carries the `meetpunt` elements parsed from the
response. `t1`, `t2` are the two `get_time_json()` results. The returned
list holds every file write performed (path and dumped snapshot); it is
empty unless `process_data` was reached. -/
def runMain (fetchA fetchB : Except String (List Xml)) (t1 t2 : String) :
    Outcome × List (String × Snapshot) :=
  match fetchA with
  | .error _ => (.sysExit 1, [])
  | .ok mpsA =>
    match getData mpsA with
    | .error e => (.uncaught e, [])
    | .ok raw =>
      match cleanData raw with
      | .error e => (.uncaught e, [])
      | .ok cleaned =>
        match fetchB with
        | .error _ => (.sysExit 1, [])
        | .ok mpsB =>
          match getMeasurePointsData mpsB with
          | .error e => (.uncaught e, [])
          | .ok mpd =>
            match combineData cleaned mpd with
            | .error e => (.uncaught e, [])
            | .ok combined =>
              let w := processData t1 t2 combined
              (.success, [w.latest, w.archive])

/-- A Python dictionary key as they occur in this program: an `int` (sensor
id) or a `str`. Python `==` never identifies an `int` with a `str`, which the
distinct constructors mirror. -/
inductive PyKey where
  | i : Int → PyKey
  | s : String → PyKey
  deriving DecidableEq, Repr

/-- The fragment of Python values the snapshot is built from (no lists occur
in it): strings, ints, floats (exact rationals), booleans, `None` and
dictionaries in insertion order. -/
inductive PyVal where
  | str : String → PyVal
  | int : Int → PyVal
  | float : Rat → PyVal
  | bool : Bool → PyVal
  | pynone : PyVal
  | dict : List (PyKey × PyVal) → PyVal

/-- The string `json.dump` uses for a dictionary key: `int` keys are
serialized as their decimal representation, `str` keys as themselves. -/
def jsonKeyStr : PyKey → String
  | .i n => toString n
  | .s s => s

mutual
/-- Semantics of `json.loads(json.dumps(v))` on the fragment above, as the
CPython `json` module documents it: scalars round-trip to equal values
(`repr`-based float serialization is value-preserving), every dictionary key
comes back as a string, and insertion order is preserved. -/
def roundTrip : PyVal → PyVal
  | .str s => .str s
  | .int n => .int n
  | .float q => .float q
  | .bool b => .bool b
  | .pynone => .pynone
  | .dict l => .dict (roundTripEntries l)

/-- Entry-wise round trip of a dictionary. -/
def roundTripEntries : List (PyKey × PyVal) → List (PyKey × PyVal)
  | [] => []
  | (k, v) :: t => (.s (jsonKeyStr k), roundTrip v) :: roundTripEntries t
end

/-- Keys of a dictionary value (empty for scalars). -/
def pyKeys : PyVal → List PyKey
  | .dict l => l.map Prod.fst
  | _ => []

/-- An XML text node as a Python/JSON value: `None` becomes `null`. -/
def optStrToPy : Option String → PyVal
  | none => .pynone
  | some s => .str s

/-- The Python dictionary `process_data` dumps for one joined record. -/
def jrecToPy (j : JRec) : PyVal :=
  .dict [(.s "speed", .int j.speed),
         (.s "working", .bool j.working),
         (.s "longitude", .float j.longitude),
         (.s "latitude", .float j.latitude),
         (.s "location", optStrToPy j.location),
         (.s "lane", optStrToPy j.lane)]

/-- The Python dictionary `final_data` that `process_data` dumps: `time`
maps to the timestamp string and `measure_points` to the joined dictionary,
whose keys are the integer sensor ids. -/
def snapToPy (s : Snapshot) : PyVal :=
  .dict [(.s "time", .str s.time),
         (.s "measure_points",
          .dict (s.measure_points.map (fun p => (.i p.1, jrecToPy p.2))))]

/-- The same snapshot with every integer sensor-id key replaced by its
decimal string form: the value `json.load` actually returns. -/
def snapToPyStr (s : Snapshot) : PyVal :=
  .dict [(.s "time", .str s.time),
         (.s "measure_points",
          .dict (s.measure_points.map
            (fun p => (.s (toString p.1), jrecToPy p.2))))]

/-- The two coordinate fields the joiner parses (lines 110-111). -/
def coordFields : List String :=
  ["lengtegraad_EPSG_4326", "breedtegraad_EPSG_4326"]

/-- The four metadata fields the joiner subscripts (lines 110-113). -/
def requiredFields : List String :=
  ["lengtegraad_EPSG_4326", "breedtegraad_EPSG_4326",
   "volledige_naam", "Rijstrook"]

/-- The metadata dictionary has an entry for `k` carrying every field the
joiner requires. -/
def hasAllMeta (mpd : List (Int × Rec)) (k : Int) : Bool :=
  match aget? mpd k with
  | some md => requiredFields.all (fun f => (aget? md f).isSome)
  | none => false

/-- Well-formed numeric metadata: every coordinate field present anywhere in
the metadata dictionary is a string (not `None`) that parses as a float
after comma-to-dot replacement. -/
def wfMeta (mpd : List (Int × Rec)) : Bool :=
  mpd.all (fun p => coordFields.all (fun f =>
    match aget? p.2 f with
    | none => true
    | some none => false
    | some (some s) => (pyFloat? (replaceCommaDot s)).isSome))

/-- Fold of tag-to-text assignments over a list of elements, starting from
record `d`: the flattening both fetchers perform. -/
def textFold (d : Rec) (es : List Xml) : Rec :=
  es.foldl (fun d2 e => aset d2 e.tag e.text) d

/-- Cleaned input of the join examples: one sensor, id 1. -/
def c3Data : List (Int × CRec) := [(1, { speed := 0, working := false })]

/-- Complete, parseable metadata for sensor id 1. -/
def c3Mpd : List (Int × Rec) :=
  [(1, [("lengtegraad_EPSG_4326", some "3,21"),
        ("breedtegraad_EPSG_4326", some "51,05"),
        ("volledige_naam", some "Main St"), ("Rijstrook", some "1")])]

/-- The join of `c3Data` with `c3Mpd`. -/
def c3Res : List (Int × JRec) :=
  [(1, { speed := 0, working := false, longitude := mkRat 321 100,
         latitude := mkRat 5105 100, location := some "Main St",
         lane := some "1" })]

/-- Cleaned input with ids 5 and 7; id 7 has no metadata. -/
def c2Data : List (Int × CRec) :=
  [(5, { speed := 42, working := true }), (7, { speed := 10, working := false })]

/-- Metadata for ids 5 and 9; id 9 has no measurement. -/
def c2Mpd : List (Int × Rec) :=
  [(5, [("lengtegraad_EPSG_4326", some "3,21"),
        ("breedtegraad_EPSG_4326", some "51,05"),
        ("volledige_naam", some "Main St"), ("Rijstrook", some "1")]),
   (9, [("lengtegraad_EPSG_4326", some "4,70"),
        ("breedtegraad_EPSG_4326", some "50,88"),
        ("volledige_naam", some "Ring"), ("Rijstrook", some "2")])]

/-- Top-level children of the C4 example sensor. -/
def c4Tops : List Xml :=
  [Xml.mk "beschikbaar" [] (some "1") [], Xml.mk "defect" [] (some "") []]

/-- A measurement-class group with class id `"1"`. -/
def c4G1 : Xml :=
  Xml.mk "meetdata" [("klasse_id", "1")] none
    [Xml.mk "voertuigsnelheid_rekenkundig" [] (some "99") []]

/-- A measurement-class group with class id `"2"`. -/
def c4G2 : Xml :=
  Xml.mk "meetdata" [("klasse_id", "2")] none
    [Xml.mk "voertuigsnelheid_rekenkundig" [] (some "42") []]

/-- The snapshot of the C8 example: one sensor, integer key 5. -/
def c8Snap : Snapshot :=
  { time := "T",
    measure_points :=
      [(5, { speed := 42, working := true,
             longitude := mkRat 321 100, latitude := mkRat 5105 100,
             location := some "Main St", lane := some "1" })] }

/-- C1: the claim says the cleaner sets `working` from `defect` (falsy),
`beschikbaar` and `geldig` parsed as integers, and in particular succeeds on
`defect=""`, `beschikbaar="1"`, `geldig="0"` with `working=true`. The code
instead evaluates `key_data['beschikbaar'] <= 1` on the string value (XML
text is never an int), which Python 3 rejects with `TypeError`, so the
cleaner fails on exactly the spec's well-formed example. -/
theorem c1_cleaner_type_error_on_spec_example :
    cleanData [(1, [("defect", some ""), ("beschikbaar", some "1"),
                    ("geldig", some "0"),
                    ("voertuigsnelheid_rekenkundig", some "10")])]
      = .error .typeError := rfl

/-- C7: the claim says a non-numeric speed raises a data-format error and
that all-numeric-speed inputs clean with an unchanged key set. The first
half holds only when `defect` is truthy (first conjunct, `ValueError` from
`int("abc")`); when `defect` is falsy the string-to-int comparison raises
`TypeError` first, even though every speed is numeric (second conjunct),
refuting the second half. The third conjunct shows the only returning path:
truthy `defect`, numeric speed, `working = false`. -/
theorem c7_cleaner_failure_modes :
    cleanData [(7, [("defect", some "1"), ("beschikbaar", some "0"),
                    ("geldig", some "0"),
                    ("voertuigsnelheid_rekenkundig", some "abc")])]
      = .error .valueError
    ∧ cleanData [(7, [("defect", some ""), ("beschikbaar", some "0"),
                      ("geldig", some "0"),
                      ("voertuigsnelheid_rekenkundig", some "42")])]
      = .error .typeError
    ∧ cleanData [(7, [("defect", some "x"), ("beschikbaar", some "0"),
                      ("geldig", some "0"),
                      ("voertuigsnelheid_rekenkundig", some "42")])]
      = .ok [(7, { speed := 42, working := false })] :=
  ⟨rfl, rfl, rfl⟩

/-- C9: the joiner parses a coordinate string by replacing the comma
decimal separator with a dot and converting to float; the metadata value
`"51,21"` comes out as the float `51.21` (and `"4,40"` as `4.40`) in the
joined record, whatever the cleaned fields are. -/
theorem c9_coordinate_parsing (sp : Int) (w : Bool) :
    combineData [(3, { speed := sp, working := w })]
      [(3, [("lengtegraad_EPSG_4326", some "51,21"),
            ("breedtegraad_EPSG_4326", some "4,40"),
            ("volledige_naam", some "Main St"), ("Rijstrook", some "R1")])]
    = .ok [(3, { speed := sp, working := w, longitude := (51.21 : Rat),
                 latitude := (4.40 : Rat), location := some "Main St",
                 lane := some "R1" })] := by
  have h1 : (51.21 : Rat) = mkRat 5121 100 := by rw [Rat.mkRat_eq_div]; norm_num
  have h2 : (4.40 : Rat) = mkRat 440 100 := by rw [Rat.mkRat_eq_div]; norm_num
  rw [h1, h2]
  rfl

/-- C6: the claim says the writer computes one timestamp and uses the same
string for the snapshot's `time` field and the archive file name. The code
calls `get_time_json()` twice; when the two clock reads differ (`"A"` and
`"B"`), the archive file name is not derived from the snapshot's `time`. -/
theorem c6_counterexample_two_clock_reads :
    (processData "A" "B" []).archive.1
      ≠ "old_data/" ++ (processData "A" "B" []).latest.2.time ++ ".json" := by
  decide

/-- C6 (amended): the writer reads the clock twice; the snapshot's `time`
field is the first reading, both files receive that identical snapshot, the
archive file is named from the second reading, and the archive name matches
the snapshot's `time` field exactly when the two readings coincide. -/
theorem c6_timestamp_usage (t1 t2 : String) (data : List (Int × JRec)) :
    (processData t1 t2 data).latest.2 = { time := t1, measure_points := data }
    ∧ (processData t1 t2 data).archive.2 = (processData t1 t2 data).latest.2
    ∧ (processData t1 t2 data).archive.1 = "old_data/" ++ t2 ++ ".json"
    ∧ (t1 = t2 → (processData t1 t2 data).archive.1
        = "old_data/" ++ (processData t1 t2 data).latest.2.time ++ ".json") := by
  refine ⟨rfl, rfl, rfl, ?_⟩
  intro h
  subst h
  rfl

/-- C6 witness: with both clock reads equal to `"T"`, the archive name is
built from the snapshot's own `time` field. -/
theorem c6_timestamp_usage_witness :
    (processData "T" "T" []).archive.1
      = "old_data/" ++ (processData "T" "T" []).latest.2.time ++ ".json" :=
  (c6_timestamp_usage "T" "T" []).2.2.2 rfl

/-- C3: the claim says the join's key set is always a strict subset of the
cleaned key set. When every cleaned id has complete metadata nothing is
deleted: on `c3Data`/`c3Mpd` the joiner returns exactly the input key set. -/
theorem c3_counterexample_no_key_removed :
    combineData c3Data c3Mpd = .ok c3Res
    ∧ c3Res.map Prod.fst = c3Data.map Prod.fst :=
  ⟨rfl, rfl⟩

/-- C3 (amended): the join's key set is a subset, not necessarily strict, of
the cleaned mapping's key set: whenever the joiner returns, every key of the
result is a key of the cleaned input. -/
theorem c3_join_keys_subset (data : List (Int × CRec)) (mpd : List (Int × Rec))
    (res : List (Int × JRec)) (h : combineData data mpd = .ok res) :
    ∀ k, k ∈ res.map Prod.fst → k ∈ data.map Prod.fst := by
  induction data generalizing res with
  | nil =>
    simp only [combineData] at h
    cases h
    intro k hk
    simp at hk
  | cons p rest ih =>
    obtain ⟨k0, c⟩ := p
    simp only [combineData] at h
    cases he : combineEntry mpd k0 c with
    | error e => rw [he] at h; cases h
    | ok r =>
      rw [he] at h
      cases ht : combineData rest mpd with
      | error e => rw [ht] at h; cases h
      | ok tail =>
        rw [ht] at h
        cases r with
        | none =>
          cases h
          intro k hk
          exact List.mem_cons_of_mem _ (ih _ ht k hk)
        | some j =>
          cases h
          intro k hk
          rcases List.mem_cons.mp hk with hk | hk
          · exact List.mem_cons.mpr (Or.inl hk)
          · exact List.mem_cons_of_mem _ (ih _ ht k hk)

/-- C3 witness: on the concrete join of `c3Data` with `c3Mpd`, the key 1 of
the result is a key of the input. -/
theorem c3_join_keys_subset_witness :
    (1 : Int) ∈ c3Data.map Prod.fst :=
  c3_join_keys_subset c3Data c3Mpd c3Res rfl 1 (by decide)

/-- C5: when either feed's fetch fails at the transport level, the run ends
with exit status 1 and performs no file write. A failing first fetch exits
via `sys.exit(1)` before anything else; a failing second fetch exits the
same way before `process_data`; if an earlier stage raised, the uncaught
exception also terminates the interpreter with status 1 and no write
happens either. -/
theorem c5_fetch_failure (fetchA fetchB : Except String (List Xml))
    (t1 t2 : String)
    (h : (∃ m, fetchA = .error m) ∨ (∃ m, fetchB = .error m)) :
    exitCode (runMain fetchA fetchB t1 t2).1 = 1
    ∧ (runMain fetchA fetchB t1 t2).2 = [] := by
  cases fetchA with
  | error m => exact ⟨rfl, rfl⟩
  | ok mpsA =>
    have hb : ∃ m, fetchB = .error m := by
      rcases h with ⟨m, hm⟩ | hb
      · cases hm
      · exact hb
    rcases hb with ⟨m, hm⟩
    subst hm
    cases hg : getData mpsA with
    | error e => simp [runMain, hg, exitCode]
    | ok raw =>
      cases hc : cleanData raw with
      | error e => simp [runMain, hg, hc, exitCode]
      | ok cleaned => simp [runMain, hg, hc, exitCode]

/-- C5 witness: a transport failure on the measurement feed exits with
status 1 and writes nothing. -/
theorem c5_fetch_failure_witness :
    exitCode (runMain (.error "connection refused") (.ok []) "T1" "T2").1 = 1
    ∧ (runMain (.error "connection refused") (.ok []) "T1" "T2").2 = [] :=
  c5_fetch_failure (.error "connection refused") (.ok []) "T1" "T2"
    (Or.inl ⟨"connection refused", rfl⟩)

/-- Over children that are not `meetdata` elements, the fetcher loop only
assigns tag-to-text and cannot fail. -/
theorem buildRec_no_meetdata (es : List Xml)
    (h : ∀ e ∈ es, e.tag ≠ "meetdata") :
    ∀ d, buildRec d es = .ok (textFold d es) := by
  induction es with
  | nil => intro d; rfl
  | cons e rest ih =>
    intro d
    have he : e.tag ≠ "meetdata" := h e (List.mem_cons_self e rest)
    have ha : addChild d e = .ok (aset d e.tag e.text) := by
      simp only [addChild, if_pos he]
    calc buildRec d (e :: rest)
        = buildRec (aset d e.tag e.text) rest := by
          simp only [buildRec, ha]
      _ = .ok (textFold (aset d e.tag e.text) rest) :=
          ih (fun x hx => h x (List.mem_cons_of_mem _ hx)) _
      _ = .ok (textFold d (e :: rest)) := rfl

/-- The fetcher loop over an appended child list runs left part first. -/
theorem buildRec_append (xs ys : List Xml) :
    ∀ d, buildRec d (xs ++ ys)
      = match buildRec d xs with
        | .ok d2 => buildRec d2 ys
        | .error e => .error e := by
  induction xs with
  | nil => intro d; rfl
  | cons x rest ih =>
    intro d
    simp only [List.cons_append, buildRec]
    cases addChild d x with
    | error e => rfl
    | ok d2 => exact ih d2

/-- C4: for a sensor element, the fetcher copies tag-to-text for every
child that is not a `meetdata` group, and from the group list flattens
exactly the group whose `klasse_id` is `"2"`: with groups of class `"1"`
and `"2"` only the `"2"` group's children are added (first conjunct); a
class-`"1"` group alone contributes nothing (second conjunct); and with no
group at all the record holds exactly the top-level fields (third
conjunct). -/
theorem c4_class_two_selection (tops : List Xml) (g1 g2 : Xml)
    (htops : ∀ e ∈ tops, e.tag ≠ "meetdata")
    (h1t : g1.tag = "meetdata") (h1k : aget? g1.attrib "klasse_id" = some "1")
    (h2t : g2.tag = "meetdata") (h2k : aget? g2.attrib "klasse_id" = some "2") :
    buildRec [] (tops ++ [g1, g2])
      = .ok (textFold (textFold [] tops) g2.children)
    ∧ buildRec [] (tops ++ [g1]) = .ok (textFold [] tops)
    ∧ buildRec [] tops = .ok (textFold [] tops) := by
  have hg1 : ∀ d : Rec, addChild d g1 = .ok d := by
    intro d
    simp [addChild, h1t, h1k]
  have hg2 : ∀ d : Rec, addChild d g2 = .ok (textFold d g2.children) := by
    intro d
    simp [addChild, h2t, h2k, textFold]
  have hmain := buildRec_no_meetdata tops htops
  refine ⟨?_, ?_, hmain []⟩
  · rw [buildRec_append tops [g1, g2] [], hmain []]
    show buildRec (textFold [] tops) [g1, g2]
      = .ok (textFold (textFold [] tops) g2.children)
    simp only [buildRec, hg1, hg2]
  · rw [buildRec_append tops [g1] [], hmain []]
    show buildRec (textFold [] tops) [g1] = .ok (textFold [] tops)
    simp only [buildRec, hg1]

/-- C4 witness: the concrete sensor with two top-level fields and groups of
class `"1"` and `"2"`. -/
theorem c4_class_two_selection_witness :
    buildRec [] (c4Tops ++ [c4G1, c4G2])
      = .ok (textFold (textFold [] c4Tops) c4G2.children)
    ∧ buildRec [] (c4Tops ++ [c4G1]) = .ok (textFold [] c4Tops)
    ∧ buildRec [] c4Tops = .ok (textFold [] c4Tops) :=
  c4_class_two_selection c4Tops c4G1 c4G2 (by decide) rfl rfl rfl rfl

/-- C10: with a metadata entry whose coordinate field is present but does
not parse as a float, the joiner raises an uncaught `ValueError` (first
conjunct); only a failed key lookup is caught: a missing coordinate field
(second conjunct) or a missing metadata entry (third conjunct) silently
drops the sensor id instead. -/
theorem c10_joiner_error_vs_drop (k : Int) (c : CRec) (md : Rec) (s : String)
    (h1 : aget? md "lengtegraad_EPSG_4326" = some (some s))
    (h2 : pyFloat? (replaceCommaDot s) = none) :
    combineData [(k, c)] [(k, md)] = .error .valueError
    ∧ (∀ md2 : Rec, aget? md2 "lengtegraad_EPSG_4326" = none →
        combineData [(k, c)] [(k, md2)] = .ok [])
    ∧ combineData [(k, c)] [] = .ok [] := by
  refine ⟨?_, ?_, rfl⟩
  · simp [combineData, combineEntry, aget?, h1, h2]
  · intro md2 hmd2
    simp [combineData, combineEntry, aget?, hmd2]

/-- C10 witness: the coordinate string `"abc"` raises, a metadata record
without the coordinate field drops the id. -/
theorem c10_joiner_error_vs_drop_witness :
    combineData [(1, { speed := 0, working := false })]
        [(1, [("lengtegraad_EPSG_4326", some "abc")])] = .error .valueError
    ∧ (∀ md2 : Rec, aget? md2 "lengtegraad_EPSG_4326" = none →
        combineData [(1, { speed := 0, working := false })] [(1, md2)] = .ok [])
    ∧ combineData [(1, { speed := 0, working := false })] [] = .ok [] :=
  c10_joiner_error_vs_drop 1 { speed := 0, working := false }
    [("lengtegraad_EPSG_4326", some "abc")] "abc" rfl rfl

/-- A successful association-list lookup returns an entry of the list. -/
theorem aget?_mem {κ α : Type} [DecidableEq κ] (l : List (κ × α)) (k : κ)
    (v : α) (h : aget? l k = some v) : (k, v) ∈ l := by
  induction l with
  | nil => cases h
  | cons p rest ih =>
    obtain ⟨k0, v0⟩ := p
    by_cases hk : k0 = k
    · subst hk
      simp only [aget?, if_pos rfl] at h
      cases h
      exact List.mem_cons_self _ _
    · simp only [aget?, if_neg hk] at h
      exact List.mem_cons_of_mem _ (ih h)

/-- In well-formed metadata, a present coordinate field is a parseable
string. -/
theorem wfMeta_coord (mpd : List (Int × Rec)) (hwf : wfMeta mpd = true)
    (k : Int) (md : Rec) (hmd : aget? mpd k = some md)
    (f : String) (hf : f ∈ coordFields) (v : Option String)
    (hv : aget? md f = some v) :
    ∃ s, v = some s ∧ (pyFloat? (replaceCommaDot s)).isSome = true := by
  have hmem := aget?_mem mpd k md hmd
  have h1 := List.all_eq_true.mp hwf (k, md) hmem
  have h2 := List.all_eq_true.mp h1 f hf
  simp only at h2
  rw [hv] at h2
  cases v with
  | none => cases h2
  | some s => exact ⟨s, rfl, h2⟩

/-- Under well-formed metadata the per-entry join step never raises, and it
keeps the entry exactly when every required metadata field is present. -/
theorem combineEntry_wf (mpd : List (Int × Rec)) (hwf : wfMeta mpd = true)
    (k : Int) (c : CRec) :
    ∃ r, combineEntry mpd k c = .ok r ∧ r.isSome = hasAllMeta mpd k := by
  cases hmd : aget? mpd k with
  | none =>
    refine ⟨none, ?_, ?_⟩
    · simp [combineEntry, hmd]
    · simp [hasAllMeta, hmd]
  | some md =>
    cases h1 : aget? md "lengtegraad_EPSG_4326" with
    | none =>
      refine ⟨none, ?_, ?_⟩
      · simp [combineEntry, hmd, h1]
      · simp [hasAllMeta, hmd, requiredFields, h1]
    | some v1 =>
      obtain ⟨s1, rfl, hp1⟩ :=
        wfMeta_coord mpd hwf k md hmd _ (by simp [coordFields]) v1 h1
      obtain ⟨q1, hq1⟩ := Option.isSome_iff_exists.mp hp1
      cases h2 : aget? md "breedtegraad_EPSG_4326" with
      | none =>
        refine ⟨none, ?_, ?_⟩
        · simp [combineEntry, hmd, h1, hq1, h2]
        · simp [hasAllMeta, hmd, requiredFields, h1, h2]
      | some v2 =>
        obtain ⟨s2, rfl, hp2⟩ :=
          wfMeta_coord mpd hwf k md hmd _ (by simp [coordFields]) v2 h2
        obtain ⟨q2, hq2⟩ := Option.isSome_iff_exists.mp hp2
        cases h3 : aget? md "volledige_naam" with
        | none =>
          refine ⟨none, ?_, ?_⟩
          · simp [combineEntry, hmd, h1, hq1, h2, hq2, h3]
          · simp [hasAllMeta, hmd, requiredFields, h1, h2, h3]
        | some loc =>
          cases h4 : aget? md "Rijstrook" with
          | none =>
            refine ⟨none, ?_, ?_⟩
            · simp [combineEntry, hmd, h1, hq1, h2, hq2, h3, h4]
            · simp [hasAllMeta, hmd, requiredFields, h1, h2, h3, h4]
          | some lane =>
            refine ⟨some { speed := c.speed, working := c.working,
                           longitude := q1, latitude := q2,
                           location := loc, lane := lane }, ?_, ?_⟩
            · simp [combineEntry, hmd, h1, hq1, h2, hq2, h3, h4]
            · simp [hasAllMeta, hmd, requiredFields, h1, h2, h3, h4]

/-- Under well-formed metadata the joiner returns, and its key list is the
cleaned key list filtered by metadata completeness. -/
theorem combineData_wf (data : List (Int × CRec)) (mpd : List (Int × Rec))
    (hwf : wfMeta mpd = true) :
    ∃ res, combineData data mpd = .ok res ∧
      res.map Prod.fst
        = (data.map Prod.fst).filter (fun k => hasAllMeta mpd k) := by
  induction data with
  | nil => exact ⟨[], rfl, rfl⟩
  | cons p rest ih =>
    obtain ⟨k, c⟩ := p
    obtain ⟨r, hr, hrs⟩ := combineEntry_wf mpd hwf k c
    obtain ⟨tail, htail, htk⟩ := ih
    cases r with
    | none =>
      refine ⟨tail, ?_, ?_⟩
      · simp [combineData, hr, htail]
      · have hm : hasAllMeta mpd k = false := by simpa using hrs.symm
        simp [htk, hm]
    | some j =>
      refine ⟨(k, j) :: tail, ?_, ?_⟩
      · simp [combineData, hr, htail]
      · have hm : hasAllMeta mpd k = true := by simpa using hrs.symm
        simp [htk, hm]

/-- C2: when every coordinate field present in the metadata is a parseable
string and the cleaned keys are distinct, the joiner returns a mapping that
the writer embeds unchanged as the snapshot's `measure_points`, holding
exactly one record for each sensor id that is a cleaned key with a complete
metadata entry, and none for any other id. -/
theorem c2_join_exact_keys (data : List (Int × CRec)) (mpd : List (Int × Rec))
    (hwf : wfMeta mpd = true) (hnd : (data.map Prod.fst).Nodup) :
    ∃ res, combineData data mpd = .ok res
      ∧ (∀ t1 t2, (processData t1 t2 res).latest.2.measure_points = res)
      ∧ ∀ k : Int, (res.map Prod.fst).count k
          = if hasAllMeta mpd k = true ∧ k ∈ data.map Prod.fst
            then 1 else 0 := by
  obtain ⟨res, hres, hkeys⟩ := combineData_wf data mpd hwf
  refine ⟨res, hres, fun t1 t2 => rfl, ?_⟩
  intro k
  rw [hkeys]
  by_cases h : hasAllMeta mpd k = true ∧ k ∈ data.map Prod.fst
  · rw [if_pos h]
    refine List.count_eq_one_of_mem (hnd.filter _) ?_
    exact List.mem_filter.mpr ⟨h.2, by simp [h.1]⟩
  · rw [if_neg h]
    refine List.count_eq_zero_of_not_mem ?_
    intro hmem
    obtain ⟨hm, hp⟩ := List.mem_filter.mp hmem
    exact h ⟨by simpa using hp, hm⟩

/-- C2 witness: ids 5 (in both feeds) is kept once, id 7
(measurements-only) and id 9 (metadata-only) are absent. -/
theorem c2_join_exact_keys_witness :
    ∃ res, combineData c2Data c2Mpd = .ok res
      ∧ (∀ t1 t2, (processData t1 t2 res).latest.2.measure_points = res)
      ∧ ∀ k : Int, (res.map Prod.fst).count k
          = if hasAllMeta c2Mpd k = true ∧ k ∈ c2Data.map Prod.fst
            then 1 else 0 :=
  c2_join_exact_keys c2Data c2Mpd (by decide) (by decide)

/-- Round trip is the identity on an XML text node embedded as JSON. -/
theorem roundTrip_optStr (x : Option String) :
    roundTrip (optStrToPy x) = optStrToPy x := by
  cases x <;> rfl

/-- Round trip is the identity on a joined record: all its keys are already
strings and all its values are scalars. -/
theorem roundTrip_jrec (j : JRec) : roundTrip (jrecToPy j) = jrecToPy j := by
  simp [jrecToPy, roundTrip, roundTripEntries, jsonKeyStr, roundTrip_optStr]

/-- Round trip of the sensor dictionary: every integer key comes back as its
decimal string, the records are unchanged. -/
theorem roundTripEntries_intKeys (l : List (Int × JRec)) :
    roundTripEntries (l.map (fun p => (PyKey.i p.1, jrecToPy p.2)))
      = l.map (fun p => (PyKey.s (toString p.1), jrecToPy p.2)) := by
  induction l with
  | nil => rfl
  | cons p rest ih =>
    simp [roundTripEntries, jsonKeyStr, roundTrip_jrec, ih]

/-- C8: serializing a snapshot with `json.dump` and parsing it back with
`json.load` does not return an equal structure: the integer sensor-id key 5
of `c8Snap` comes back as the string key `"5"`, which Python `==` does not
identify with the integer 5; since the key itself changes constructor, no
reordering of keys makes the two equal either. -/
theorem c8_roundtrip_counterexample :
    roundTrip (snapToPy c8Snap) ≠ snapToPy c8Snap
    ∧ pyKeys (PyVal.dict (c8Snap.measure_points.map
        (fun p => (PyKey.i p.1, jrecToPy p.2)))) = [PyKey.i 5]
    ∧ pyKeys (roundTrip (PyVal.dict (c8Snap.measure_points.map
        (fun p => (PyKey.i p.1, jrecToPy p.2))))) = [PyKey.s "5"] := by
  refine ⟨?_, rfl, ?_⟩
  · intro h
    simp [c8Snap, snapToPy, jrecToPy, roundTrip, roundTripEntries,
          jsonKeyStr, optStrToPy] at h
  · simp [c8Snap, roundTrip, roundTripEntries, jrecToPy, jsonKeyStr, pyKeys]
    rfl

/-- C8 (amended): the round trip yields the original snapshot structure
with every integer sensor-id key replaced by its decimal string
representation; all other fields, the float values included, come back
equal. -/
theorem c8_roundtrip_stringifies_keys (s : Snapshot) :
    roundTrip (snapToPy s) = snapToPyStr s := by
  simp [snapToPy, snapToPyStr, roundTrip, roundTripEntries, jsonKeyStr,
        roundTripEntries_intKeys]

end DataUpdater
